import Mathlib

/-!
Shallow embedding of the daytripper-api itinerary Lambda handler
(`src/lambda/itinerary/handler.ts`) and proofs about it.

External effects (geocoding, nearby place search, place details) are
modelled as oracles carried in an `Env` record; thrown JS exceptions are
modelled with `Except String`. JS numbers that only ever feed comparisons
and exact decimal arithmetic are modelled as `ℚ`; JS truthiness on
optional strings / numbers is modelled explicitly.
-/

namespace Daytripper

/-- JS truthiness of an optional string (`undefined` and `""` are falsy). -/
def optStrTruthy : Option String → Bool
  | some s => s ≠ ""
  | none => false

/-- JS truthiness of an optional number (`undefined` and `0` are falsy). -/
def optNumTruthy : Option ℚ → Bool
  | some q => q ≠ 0
  | none => false

structure LatLng where
  lat : ℚ
  lng : ℚ
deriving DecidableEq, Repr

/-- The `displayName` object of a Places v1 search result. -/
structure DisplayName where
  text : Option String
deriving DecidableEq, Repr

/-- The `location` object of a Places v1 search result. -/
structure PlaceLocation where
  latitude : Option ℚ
  longitude : Option ℚ
deriving DecidableEq, Repr

/-- `PlacesV1SearchResult` from the handler source: every field optional. -/
structure PlacesV1SearchResult where
  id : Option String := none
  displayName : Option DisplayName := none
  formattedAddress : Option String := none
  websiteUri : Option String := none
  rating : Option ℚ := none
  userRatingCount : Option ℚ := none
  location : Option PlaceLocation := none
  types : Option (List String) := none
deriving DecidableEq, Repr

/-- The filter predicate inside `pickTopPlaces`:
`p.id && p.displayName?.text && p.location?.latitude && p.location?.longitude`,
with JS truthiness (empty strings and zero coordinates are falsy). -/
def eligible (p : PlacesV1SearchResult) : Bool :=
  optStrTruthy p.id &&
  optStrTruthy (p.displayName.bind DisplayName.text) &&
  optNumTruthy (p.location.bind PlaceLocation.latitude) &&
  optNumTruthy (p.location.bind PlaceLocation.longitude)

/-- Rating key used by the sort comparator (`a.rating ?? 0`). -/
def ratingKey (p : PlacesV1SearchResult) : ℚ := p.rating.getD 0

/-- Rating-count key used by the sort comparator (`a.userRatingCount ?? 0`). -/
def countKey (p : PlacesV1SearchResult) : ℚ := p.userRatingCount.getD 0

/-- `placeLE a b` holds when the JS comparator
`(a, b) => (br !== ar ? br - ar : bc - ac)` returns a value `≤ 0`,
i.e. when `a` may be placed (weakly) before `b` in the sorted output. -/
def placeLE (a b : PlacesV1SearchResult) : Prop :=
  if ratingKey a = ratingKey b then countKey b ≤ countKey a
  else ratingKey b < ratingKey a

instance : DecidableRel placeLE := fun a b => by
  unfold placeLE; infer_instance

/-- `pickTopPlaces` from the handler source: copy, filter on required-field
truthiness, stable sort by the rating/rating-count comparator
(JS `Array.prototype.sort` is specified stable; modelled by the stable
`insertionSort`), then `slice(0, count)`. -/
def pickTopPlaces (places : List PlacesV1SearchResult) (count : Nat) :
    List PlacesV1SearchResult :=
  (((places.filter eligible).insertionSort placeLE).take count)

inductive SpiceLabel
  | mild
  | medium
  | hot
deriving DecidableEq, Repr

structure Preferences where
  spiceLabel : Option SpiceLabel := none
  adventureScore : Option ℚ := none
deriving DecidableEq, Repr

/-- A request as produced by the Zod schema parse (`ItineraryRequest`). -/
structure ItineraryRequest where
  origin : Option LatLng := none
  zipCode : Option String := none
  maxDistanceMiles : Option ℚ := none
  intents : Option (List String) := none
  preferences : Option Preferences := none
  explain : Option Bool := none
deriving DecidableEq, Repr

/-- `toAdventureScore` from the handler source. -/
def toAdventureScore : Option SpiceLabel → Option ℚ
  | none => none
  | some .mild => some 2
  | some .medium => some 6
  | some .hot => some 9

/-- `milesToMeters`: `Math.round(mi * 1609.344)`. `Math.round` rounds
half-up, as does Mathlib `round` on `ℚ`. -/
def milesToMeters (mi : ℚ) : ℤ := round (mi * (1609.344 : ℚ))

inductive Kind
  | restaurant
  | coffee
  | activity
deriving DecidableEq, Repr

structure StopLocation where
  lat : ℚ
  lng : ℚ
  address : Option String := none
deriving DecidableEq, Repr

structure Links where
  googleMapsUrl : Option String := none
  websiteUrl : Option String := none
deriving DecidableEq, Repr

structure ItineraryStop where
  id : String
  order : Nat
  kind : Kind
  name : String
  estimatedDurationMinutes : ℚ
  location : StopLocation
  links : Option Links := none
  tags : Option (List String) := none
  rationale : Option String := none
deriving DecidableEq, Repr

/-- The `stops.reduce((sum, s) => sum + s.estimatedDurationMinutes, 0)`
accumulator of `totalHoursFromStops`. -/
def sumMinutes (stops : List ItineraryStop) : ℚ :=
  stops.foldl (fun sum s => sum + s.estimatedDurationMinutes) 0

/-- `totalHoursFromStops`: sum of minutes over 60, then
`Math.round(hours * 10) / 10`. -/
def totalHoursFromStops (stops : List ItineraryStop) : ℚ :=
  let hours := sumMinutes stops / 60
  (round (hours * 10) : ℚ) / 10

/-- UTF-8 code units of a character, as natural numbers. -/
def utf8Bytes (c : Char) : List Nat :=
  let n := c.toNat
  if n < 128 then [n]
  else if n < 2048 then [192 + n / 64, 128 + n % 64]
  else if n < 65536 then [224 + n / 4096, 128 + (n / 64) % 64, 128 + n % 64]
  else [240 + n / 262144, 128 + (n / 4096) % 64, 128 + (n / 64) % 64, 128 + n % 64]

/-- Bytes that JS `encodeURIComponent` leaves unescaped:
alphanumerics and `- _ . ! ~ * ' ( )`. -/
def uriUnreservedByte (b : Nat) : Bool :=
  (65 ≤ b && b ≤ 90) || (97 ≤ b && b ≤ 122) || (48 ≤ b && b ≤ 57) ||
  b = 45 || b = 95 || b = 46 || b = 33 || b = 126 || b = 42 || b = 39 ||
  b = 40 || b = 41

/-- Upper-case hex digit of a value below 16. -/
def hexDigit (n : Nat) : Char :=
  Char.ofNat (if n < 10 then 48 + n else 55 + n)

/-- Percent-encoding of a single byte as done by `encodeURIComponent`. -/
def encodeByte (b : Nat) : String :=
  if uriUnreservedByte b then String.singleton (Char.ofNat b)
  else "%" ++ String.singleton (hexDigit (b / 16)) ++ String.singleton (hexDigit (b % 16))

/-- JS `encodeURIComponent`: percent-encode every UTF-8 byte outside the
unreserved set. -/
def encodeURIComponent (s : String) : String :=
  String.join ((s.data.flatMap utf8Bytes).map encodeByte)

/-- `googleMapsPlaceUrl` from the handler source. -/
def googleMapsPlaceUrl (placeId : String) : String :=
  "https://www.google.com/maps/place/?q=place_id:" ++ encodeURIComponent placeId

structure PlaceAddressComponent where
  longText : Option String := none
  shortText : Option String := none
  types : Option (List String) := none
  languageCode : Option String := none
deriving DecidableEq, Repr

structure PlaceDetailsV1Result where
  id : Option String := none
  addressComponents : Option (List PlaceAddressComponent) := none
deriving DecidableEq, Repr

/-- The priority list of address-component types scanned by
`extractNeighborhoodLikeLabel`. -/
def preferredTypes : List String :=
  ["neighborhood", "sublocality", "locality", "administrative_area_level_2"]

/-- The scan loop of `extractNeighborhoodLikeLabel`: for each preferred type
find the first component carrying it; return its `longText` if truthy, else
its `shortText` if truthy, else continue with the next type. -/
def extractScan (comps : List PlaceAddressComponent) : List String → Option String
  | [] => none
  | t :: ts =>
    match comps.find? (fun c => (c.types.getD []).contains t) with
    | some comp =>
      if optStrTruthy comp.longText then comp.longText
      else if optStrTruthy comp.shortText then comp.shortText
      else extractScan comps ts
    | none => extractScan comps ts

/-- `extractNeighborhoodLikeLabel` from the handler source. -/
def extractNeighborhoodLikeLabel (details : PlaceDetailsV1Result) : Option String :=
  extractScan (details.addressComponents.getD []) preferredTypes

/-- `placeToStop` from the handler source. The non-null assertions
`place.location!.latitude!` etc. are modelled with `getD` defaults; in the
handler the function is only reached through `pickTopPlaces`, whose filter
guarantees the fields are present. -/
def placeToStop (place : PlacesV1SearchResult) (kind : Kind) (order : Nat)
    (explain : Bool) (rationale : Option String) : ItineraryStop :=
  let lat := (place.location.bind PlaceLocation.latitude).getD 0
  let lng := (place.location.bind PlaceLocation.longitude).getD 0
  let id := place.id.getD ""
  { id := id
    order := order
    kind := kind
    name := ((place.displayName.bind DisplayName.text).getD "Unknown")
    estimatedDurationMinutes :=
      if kind = .coffee then 35 else if kind = .restaurant then 75 else 120
    location := { lat := lat, lng := lng, address := place.formattedAddress }
    links := some { googleMapsUrl := some (googleMapsPlaceUrl id)
                    websiteUrl := place.websiteUri }
    tags := place.types
    rationale := if explain then rationale else none }

/-- Fixed rationale literal passed for coffee stops. -/
def coffeeRationale : String := "Highly-rated cafe nearby to start the day."

/-- Rationale literal passed for activity stops:
`adventureScore && adventureScore > 7 ? ... : ...` (JS truthiness on the
optional number). -/
def activityRationale (adventureScore : Option ℚ) : String :=
  if optNumTruthy adventureScore ∧ 7 < adventureScore.getD 0 then
    "A higher-energy activity choice based on your adventure score."
  else
    "A solid nearby activity pick based on ratings and proximity."

/-- Label text of a spice preference, as serialized into the template. -/
def spiceText : SpiceLabel → String
  | .mild => "mild"
  | .medium => "medium"
  | .hot => "hot"

/-- Rationale literal passed for restaurant stops. -/
def lunchRationale (spiceLabel : Option SpiceLabel) : String :=
  match spiceLabel with
  | some l => "A lunch spot to match your spice preference (" ++ spiceText l ++ ")."
  | none => "A well-rated lunch option nearby."

/-- The three `for` loops over `pickedCoffee`, `pickedActivities` and
`pickedLunch` with the shared mutable `order` counter, modelled with
positional offsets. -/
def assembleStops (pickedCoffee pickedActivities pickedLunch : List PlacesV1SearchResult)
    (explain : Bool) (adventureScore : Option ℚ) (spiceLabel : Option SpiceLabel) :
    List ItineraryStop :=
  let n1 := pickedCoffee.length
  let n2 := pickedActivities.length
  (pickedCoffee.enum.map (fun pi =>
    placeToStop pi.2 .coffee (1 + pi.1) explain (some coffeeRationale))) ++
  (pickedActivities.enum.map (fun pi =>
    placeToStop pi.2 .activity (1 + n1 + pi.1) explain (some (activityRationale adventureScore)))) ++
  (pickedLunch.enum.map (fun pi =>
    placeToStop pi.2 .restaurant (1 + n1 + n2 + pi.1) explain (some (lunchRationale spiceLabel))))

/-- The `Promise.all(chosen.map(...))` detail-fetch fan-out: stops with a
falsy id are skipped; any single fetch rejection rejects the whole barrier
(modelled by the `Except` error). On success, the `detailsById` map is
modelled as an association list. -/
def fetchAllDetails (details : String → Except String PlaceDetailsV1Result) :
    List ItineraryStop → Except String (List (String × PlaceDetailsV1Result))
  | [] => .ok []
  | s :: rest =>
    if s.id = "" then fetchAllDetails details rest
    else do
      let d ← details s.id
      let r ← fetchAllDetails details rest
      .ok ((s.id, d) :: r)

/-- `const neighborhood = details ? extractNeighborhoodLikeLabel(details) : undefined`
for one stop of the enrichment loop. -/
def neighborhoodLabel (detailsById : List (String × PlaceDetailsV1Result))
    (stop : ItineraryStop) : Option String :=
  match detailsById.lookup stop.id with
  | none => none
  | some details => extractNeighborhoodLikeLabel details

/-- One iteration of the enrichment `for` loop: if a neighborhood-like
label was found, append it to (or substitute it for) the stop's rationale. -/
def applyNeighborhood (detailsById : List (String × PlaceDetailsV1Result))
    (stop : ItineraryStop) : ItineraryStop :=
  match neighborhoodLabel detailsById stop with
  | none => stop
  | some n =>
    { stop with rationale := some (
        if optStrTruthy stop.rationale then
          stop.rationale.getD "" ++ " (Area: " ++ n ++ ")"
        else
          "Picked because it's in/near " ++ n ++ ".") }

/-- The `if (explain) try { ... } catch { log }` enrichment block: if any
detail fetch fails, the caught exception leaves every stop untouched;
otherwise the loop rewrites each stop's rationale. -/
def enrich (details : String → Except String PlaceDetailsV1Result)
    (stops : List ItineraryStop) : List ItineraryStop :=
  match fetchAllDetails details stops with
  | .error _ => stops
  | .ok detailsById => stops.map (applyNeighborhood detailsById)

structure Meta where
  zipCode : String
  maxDistanceMiles : ℚ
  intents : List String
  generatedAt : String
  totalStops : Nat
  spiceLabel : Option SpiceLabel
  adventureScore : Option ℚ
  explain : Bool
deriving DecidableEq, Repr

structure Itinerary where
  title : String
  summary : String
  totalEstimatedHours : ℚ
  stops : List ItineraryStop
deriving DecidableEq, Repr

structure ItineraryResponse where
  meta : Meta
  itinerary : Itinerary
deriving DecidableEq, Repr

/-- The JSON body of a handler response before `JSON.stringify`. -/
inductive Body
  | errorBody (error : String)
  | success (res : ItineraryResponse)
  | empty
deriving DecidableEq, Repr

/-- The CORS header block attached to every handler response. -/
def corsHeaders : List (String × String) :=
  [("content-type", "application/json"),
   ("access-control-allow-origin", "*"),
   ("access-control-allow-headers", "content-type"),
   ("access-control-allow-methods", "OPTIONS,POST")]

structure HttpResponse where
  statusCode : Nat
  headers : List (String × String)
  body : Body
deriving DecidableEq, Repr

/-- Oracle for the external services and the clock: `geocode` is the result
of `geocodeZipToLatLng` for a zip code, `search` the result of
`nearbySearchPlacesV1` for an included type, `details` the result of
`getPlaceDetailsV1` for a place id. An `Except.error` models the rejected
promise / thrown exception of the corresponding fetch. -/
structure Env where
  apiKey : Option String
  geocode : String → Except String LatLng
  search : String → Except String (List PlacesV1SearchResult)
  details : String → Except String PlaceDetailsV1Result
  generatedAt : String

/-- `Boolean(req.explain)`. -/
def reqExplain (req : ItineraryRequest) : Bool := req.explain.getD false

/-- `req.preferences?.spiceLabel`. -/
def reqSpice (req : ItineraryRequest) : Option SpiceLabel :=
  req.preferences.bind Preferences.spiceLabel

/-- `req.preferences?.adventureScore ?? toAdventureScore(spiceLabel)`. -/
def reqAdventure (req : ItineraryRequest) : Option ℚ :=
  (req.preferences.bind Preferences.adventureScore).orElse
    (fun _ => toAdventureScore (reqSpice req))

/-- Step 1 of the handler:
`req.origin ?? (req.zipCode ? await geocodeZipToLatLng(req.zipCode, apiKey) : undefined)`,
with JS truthiness on the zip string and exception propagation from the
geocoding call. -/
def resolveOrigin (env : Env) (req : ItineraryRequest) :
    Except String (Option LatLng) :=
  match req.origin with
  | some o => .ok (some o)
  | none =>
    match req.zipCode with
    | some z => if z = "" then .ok none else (env.geocode z).map some
    | none => .ok none

/-- Step 3 of the handler: bucket selections and stop assembly. -/
def selectChosen (coffee restaurants parks museums : List PlacesV1SearchResult)
    (explain : Bool) (adventureScore : Option ℚ) (spiceLabel : Option SpiceLabel) :
    List ItineraryStop :=
  assembleStops (pickTopPlaces coffee 1)
    ((pickTopPlaces parks 1 ++ pickTopPlaces museums 1).take 2)
    (pickTopPlaces restaurants 1)
    explain adventureScore spiceLabel

/-- The stop list after the optional enrichment phase: the value of the
mutable `chosen` array at the `chosen.length === 0` check. -/
def finalChosen (env : Env) (req : ItineraryRequest)
    (coffee restaurants parks museums : List PlacesV1SearchResult) :
    List ItineraryStop :=
  let chosen0 := selectChosen coffee restaurants parks museums
    (reqExplain req) (reqAdventure req) (reqSpice req)
  if reqExplain req then enrich env.details chosen0 else chosen0

/-- The `ItineraryResponse` literal built at the end of the handler. -/
def successResponse (env : Env) (req : ItineraryRequest)
    (chosen : List ItineraryStop) : ItineraryResponse :=
  { meta := { zipCode := (req.zipCode.getD "00000").trim
              maxDistanceMiles := req.maxDistanceMiles.getD 30
              intents := req.intents.getD []
              generatedAt := env.generatedAt
              totalStops := chosen.length
              spiceLabel := reqSpice req
              adventureScore := reqAdventure req
              explain := reqExplain req }
    itinerary := { title := "A day trip near " ++ (req.zipCode.getD "your location")
                   summary := "Built from real Google Places results. Next step: smarter ranking + AI composition."
                   totalEstimatedHours := totalHoursFromStops chosen
                   stops := chosen } }

/-- The 404 response returned when no stops were chosen. -/
def notFoundResponse : HttpResponse :=
  { statusCode := 404, headers := corsHeaders, body := .errorBody "No places found" }

/-- The 200 response returned with the assembled itinerary. -/
def okResponse (env : Env) (req : ItineraryRequest)
    (chosen : List ItineraryStop) : HttpResponse :=
  { statusCode := 200, headers := corsHeaders,
    body := .success (successResponse env req chosen) }

/-- The handler body after a successful parse of the request body, for the
POST method. The result is `Except.error e` when the handler would let an
exception escape uncaught (a rejected promise not surrounded by
`try`/`catch`), and `Except.ok` with the HTTP response otherwise. -/
def runHandler (env : Env) (req : ItineraryRequest) :
    Except String HttpResponse :=
  match env.apiKey with
  | none =>
    .ok { statusCode := 500, headers := corsHeaders,
          body := .errorBody "Server misconfigured: missing GOOGLE_MAPS_API_KEY" }
  | some _ =>
    match resolveOrigin env req with
    | .error e => .error e
    | .ok none =>
      .ok { statusCode := 400, headers := corsHeaders,
            body := .errorBody "Provide either origin \x7blat,lng\x7d or zipCode" }
    | .ok (some _origin) =>
      match env.search "cafe" with
      | .error e => .error e
      | .ok coffee =>
        match env.search "restaurant" with
        | .error e => .error e
        | .ok restaurants =>
          match env.search "park" with
          | .error e => .error e
          | .ok parks =>
            match env.search "museum" with
            | .error e => .error e
            | .ok museums =>
              let chosen := finalChosen env req coffee restaurants parks museums
              if chosen.length = 0 then
                .ok notFoundResponse
              else
                .ok (okResponse env req chosen)

/-- The stop list carried by a response, empty for error bodies. -/
def stopsOf (r : HttpResponse) : List ItineraryStop :=
  match r.body with
  | .success res => res.itinerary.stops
  | _ => []

/-! ## Spec-side reference definitions (written from the spec's words,
for the refinement claims) -/

/-- Follows the spec's words for the Selector reference filter: "filter out
candidates missing required fields (id, name, coordinate)" — a candidate is
kept iff its id, display-name text, latitude and longitude are present. -/
def specEligible (p : PlacesV1SearchResult) : Bool :=
  p.id.isSome && (p.displayName.bind DisplayName.text).isSome &&
  (p.location.bind PlaceLocation.latitude).isSome &&
  (p.location.bind PlaceLocation.longitude).isSome

/-- Follows the spec's words for the Selector reference order: descending
primarily by rating (missing rating treated as 0), secondarily by rating
count (missing count treated as 0). -/
def specLE (a b : PlacesV1SearchResult) : Prop :=
  ratingKey b < ratingKey a ∨
  (ratingKey a = ratingKey b ∧ countKey b ≤ countKey a)

instance : DecidableRel specLE := fun a b => by
  unfold specLE; infer_instance

/-- Follows the spec's words for the Selector reference: filter to
candidates with the required fields present, stably sort descending by
(rating, rating count), take the first N. -/
def specSelect (places : List PlacesV1SearchResult) (count : Nat) :
    List PlacesV1SearchResult :=
  ((places.filter specEligible).insertionSort specLE).take count

/-- The claim's filter condition as amended: id and display name present
and non-empty, latitude and longitude present and non-zero (JS truthiness
of the source's `&&` chain). -/
def amendedEligible (p : PlacesV1SearchResult) : Bool :=
  (match p.id with | some s => s ≠ "" | none => false) &&
  (match p.displayName.bind DisplayName.text with | some s => s ≠ "" | none => false) &&
  (match p.location.bind PlaceLocation.latitude with | some q => q ≠ 0 | none => false) &&
  (match p.location.bind PlaceLocation.longitude with | some q => q ≠ 0 | none => false)

/-- Indicator for having exactly the sort keys `(ro, co)`. -/
def sameKeys (ro co : ℚ) (p : PlacesV1SearchResult) : Bool :=
  decide (ratingKey p = ro ∧ countKey p = co)

/-- A candidate with all required fields present but latitude `0`:
truthiness drops it from the code's filter. -/
def zeroLatPlace : PlacesV1SearchResult :=
  { id := some "p1"
    displayName := some { text := some "Equator Cafe" }
    location := some { latitude := some 0, longitude := some 10 }
    rating := some 5
    userRatingCount := some 100 }

/-! ## Concrete fixtures -/

/-- A fully populated candidate, for concrete runs. -/
def goodPlace (i nm : String) (r c : ℚ) : PlacesV1SearchResult :=
  { id := some i
    displayName := some { text := some nm }
    location := some { latitude := some 1, longitude := some 2 }
    rating := some r
    userRatingCount := some c }

/-- A search oracle returning one candidate per bucket. -/
def goodSearch : String → Except String (List PlacesV1SearchResult) := fun t =>
  if t = "cafe" then .ok [goodPlace "cafe1" "Good Cafe" 5 10]
  else if t = "restaurant" then .ok [goodPlace "rest1" "Good Lunch" 4 20]
  else if t = "park" then .ok [goodPlace "park1" "Good Park" 3 5]
  else if t = "museum" then .ok [goodPlace "mus1" "Good Museum" 5 1]
  else .ok []

/-- A details oracle that always answers with a neighborhood component. -/
def goodDetails : String → Except String PlaceDetailsV1Result := fun _ =>
  .ok { addressComponents :=
          some [{ longText := some "Midtown", types := some ["neighborhood"] }] }

/-- A details oracle whose every fetch rejects. -/
def failDetails : String → Except String PlaceDetailsV1Result := fun _ =>
  .error "Places details failed (500)"

/-- A healthy environment. -/
def goodEnv : Env :=
  { apiKey := some "k"
    geocode := fun _ => .ok { lat := 47, lng := -122 }
    search := goodSearch
    details := goodDetails
    generatedAt := "2026-01-01T00:00:00Z" }

/-- `goodEnv` with a failing geocoder. -/
def failGeoEnv : Env := { goodEnv with geocode := fun _ => .error "Geocoding failed (500)" }

/-- `goodEnv` with failing detail fetches. -/
def failDetailsEnv : Env := { goodEnv with details := failDetails }

/-- A request with an explicit origin and no explain flag. -/
def baseReq : ItineraryRequest := { origin := some { lat := 47, lng := -122 } }

/-- A request with an explicit origin and `explain: true`. -/
def explainReq : ItineraryRequest :=
  { origin := some { lat := 47, lng := -122 }, explain := some true }

/-- A request carrying only a zip code. -/
def zipReq : ItineraryRequest := { zipCode := some "98101" }

/-- A request with a spice label and no explicit adventure score. -/
def spiceReq : ItineraryRequest :=
  { origin := some { lat := 47, lng := -122 }
    preferences := some { spiceLabel := some .medium } }

/-- A bare stop with a given duration, for concrete sums. -/
def minutesStop (m : ℚ) : ItineraryStop :=
  { id := "s", order := 1, kind := .coffee, name := "n"
    estimatedDurationMinutes := m, location := { lat := 0, lng := 0 } }

/-- Extract the success payload of a response (junk default otherwise). -/
def respPayload (r : HttpResponse) : ItineraryResponse :=
  match r.body with
  | .success res => res
  | _ => successResponse goodEnv baseReq []

/-- Extract the response of a handler result (junk default on error). -/
def respOf (e : Except String HttpResponse) : HttpResponse :=
  match e with
  | .ok r => r
  | .error _ => { statusCode := 0, headers := [], body := .empty }

/-! ## Helper lemmas -/

theorem eligible_eq_amended : eligible = amendedEligible := by
  funext p
  unfold eligible amendedEligible optStrTruthy optNumTruthy
  rcases p.id with _ | s <;>
    rcases p.displayName.bind DisplayName.text with _ | t <;>
    rcases p.location.bind PlaceLocation.latitude with _ | la <;>
    rcases p.location.bind PlaceLocation.longitude with _ | lo <;> rfl

theorem placeLE_iff_specLE (a b : PlacesV1SearchResult) :
    placeLE a b ↔ specLE a b := by
  unfold placeLE specLE
  split_ifs with h
  · simp [h, lt_irrefl]
  · simp [h]

theorem orderedInsert_congr {α : Type} (r s : α → α → Prop)
    [DecidableRel r] [DecidableRel s]
    (h : ∀ a b, r a b ↔ s a b) (a : α) :
    ∀ l : List α, l.orderedInsert r a = l.orderedInsert s a
  | [] => rfl
  | b :: l => by
    simp only [List.orderedInsert]
    by_cases hr : r a b
    · rw [if_pos hr, if_pos ((h a b).1 hr)]
    · rw [if_neg hr, if_neg (fun hs => hr ((h a b).2 hs)),
        orderedInsert_congr r s h a l]

theorem insertionSort_congr {α : Type} (r s : α → α → Prop)
    [DecidableRel r] [DecidableRel s]
    (h : ∀ a b, r a b ↔ s a b) :
    ∀ l : List α, l.insertionSort r = l.insertionSort s
  | [] => rfl
  | b :: l => by
    simp only [List.insertionSort]
    rw [insertionSort_congr r s h l, orderedInsert_congr r s h b]

theorem filter_orderedInsert_pos {α : Type} (r : α → α → Prop)
    [DecidableRel r] (q : α → Bool) (a : α)
    (ha : q a = true) :
    ∀ l : List α, (∀ b ∈ l, q b = true → r a b) →
      (l.orderedInsert r a).filter q = a :: l.filter q
  | [], _ => by simp [List.orderedInsert, ha]
  | b :: l, h => by
    simp only [List.orderedInsert]
    by_cases hr : r a b
    · simp [hr, List.filter_cons, ha]
    · have hb : q b = false := by
        cases hqb : q b
        · rfl
        · exact absurd (h b (List.mem_cons_self b l) hqb) hr
      rw [if_neg hr]
      rw [List.filter_cons, List.filter_cons]
      simp only [hb, Bool.false_eq_true, if_false]
      exact filter_orderedInsert_pos r q a ha l
        (fun c hc hqc => h c (List.mem_cons_of_mem b hc) hqc)

theorem filter_orderedInsert_neg {α : Type} (r : α → α → Prop)
    [DecidableRel r] (q : α → Bool) (a : α)
    (ha : q a = false) :
    ∀ l : List α, (l.orderedInsert r a).filter q = l.filter q
  | [] => by simp [List.orderedInsert, ha]
  | b :: l => by
    simp only [List.orderedInsert]
    by_cases hr : r a b
    · simp [hr, List.filter_cons, ha]
    · rw [if_neg hr]
      simp only [List.filter_cons]
      rw [filter_orderedInsert_neg r q a ha l]

theorem filter_insertionSort {α : Type} (r : α → α → Prop)
    [DecidableRel r] (q : α → Bool)
    (h : ∀ a b, q a = true → q b = true → r a b) :
    ∀ l : List α, (l.insertionSort r).filter q = l.filter q
  | [] => rfl
  | a :: l => by
    simp only [List.insertionSort, List.filter_cons]
    cases ha : q a
    · rw [filter_orderedInsert_neg r q a ha,
        filter_insertionSort r q h l]
      simp
    · rw [filter_orderedInsert_pos r q a ha _
        (fun b _ hqb => h a b ha hqb),
        filter_insertionSort r q h l]
      simp

/-- Inversion: a 200 success response pins down the branch taken by the
handler and the response payload. -/
theorem runHandler_ok_200 (env : Env) (req : ItineraryRequest)
    (resp : HttpResponse) (r : ItineraryResponse)
    (h1 : runHandler env req = .ok resp) (h2 : resp.statusCode = 200)
    (h3 : resp.body = .success r) :
    ∃ coffee restaurants parks museums,
      env.search "cafe" = .ok coffee ∧
      env.search "restaurant" = .ok restaurants ∧
      env.search "park" = .ok parks ∧
      env.search "museum" = .ok museums ∧
      finalChosen env req coffee restaurants parks museums ≠ [] ∧
      r = successResponse env req
        (finalChosen env req coffee restaurants parks museums) := by
  unfold runHandler at h1
  cases hk : env.apiKey with
  | none => rw [hk] at h1; cases h1; simp at h2
  | some k =>
  rw [hk] at h1
  cases hor : resolveOrigin env req with
  | error e => rw [hor] at h1; cases h1
  | ok origin? =>
  rw [hor] at h1
  cases origin? with
  | none => cases h1; simp at h2
  | some o =>
  cases hc : env.search "cafe" with
  | error e => rw [hc] at h1; cases h1
  | ok coffee =>
  rw [hc] at h1
  cases hre : env.search "restaurant" with
  | error e => rw [hre] at h1; cases h1
  | ok restaurants =>
  rw [hre] at h1
  cases hp : env.search "park" with
  | error e => rw [hp] at h1; cases h1
  | ok parks =>
  rw [hp] at h1
  cases hm : env.search "museum" with
  | error e => rw [hm] at h1; cases h1
  | ok museums =>
  rw [hm] at h1
  replace h1 :
      (if (finalChosen env req coffee restaurants parks museums).length = 0
       then Except.ok notFoundResponse
       else Except.ok (okResponse env req
              (finalChosen env req coffee restaurants parks museums))) =
        (Except.ok resp : Except String HttpResponse) := h1
  by_cases hlen : (finalChosen env req coffee restaurants parks museums).length = 0
  · rw [if_pos hlen] at h1
    cases h1
    simp [notFoundResponse] at h2
  · rw [if_neg hlen] at h1
    cases h1
    refine ⟨coffee, restaurants, parks, museums, rfl, rfl, rfl, rfl, ?_, ?_⟩
    · intro hnil
      exact hlen (by rw [hnil]; rfl)
    · rw [show (okResponse env req
          (finalChosen env req coffee restaurants parks museums)).body =
            Body.success (successResponse env req
              (finalChosen env req coffee restaurants parks museums)) from rfl] at h3
      cases h3
      rfl

/-- Forward computation: with the api key set, a resolved origin and four
successful searches, the handler returns 404 or 200 according to whether
any stop was chosen. -/
theorem runHandler_main (env : Env) (req : ItineraryRequest) (k : String)
    (o : LatLng) (coffee restaurants parks museums : List PlacesV1SearchResult)
    (hk : env.apiKey = some k) (hor : resolveOrigin env req = .ok (some o))
    (hc : env.search "cafe" = .ok coffee)
    (hre : env.search "restaurant" = .ok restaurants)
    (hp : env.search "park" = .ok parks)
    (hm : env.search "museum" = .ok museums) :
    runHandler env req =
      .ok (if (finalChosen env req coffee restaurants parks museums).length = 0
           then notFoundResponse
           else okResponse env req
             (finalChosen env req coffee restaurants parks museums)) := by
  unfold runHandler
  rw [hk, hor, hc, hre, hp, hm]
  show (if (finalChosen env req coffee restaurants parks museums).length = 0
        then Except.ok notFoundResponse
        else Except.ok (okResponse env req
          (finalChosen env req coffee restaurants parks museums))) = _
  by_cases hlen : (finalChosen env req coffee restaurants parks museums).length = 0
  · rw [if_pos hlen, if_pos hlen]
  · rw [if_neg hlen, if_neg hlen]

/-- `applyNeighborhood` only touches the rationale field. -/
theorem applyNeighborhood_skeleton (m : List (String × PlaceDetailsV1Result))
    (s : ItineraryStop) :
    (applyNeighborhood m s).id = s.id ∧
    (applyNeighborhood m s).order = s.order ∧
    (applyNeighborhood m s).kind = s.kind ∧
    (applyNeighborhood m s).estimatedDurationMinutes = s.estimatedDurationMinutes := by
  unfold applyNeighborhood
  cases neighborhoodLabel m s with
  | none => exact ⟨rfl, rfl, rfl, rfl⟩
  | some n => exact ⟨rfl, rfl, rfl, rfl⟩

/-- Enrichment preserves ids, orders, kinds, durations and the length of
the stop list. -/
theorem enrich_skeleton (d : String → Except String PlaceDetailsV1Result)
    (stops : List ItineraryStop) :
    (enrich d stops).map ItineraryStop.id = stops.map ItineraryStop.id ∧
    (enrich d stops).map ItineraryStop.order = stops.map ItineraryStop.order ∧
    (enrich d stops).map ItineraryStop.kind = stops.map ItineraryStop.kind ∧
    (enrich d stops).map ItineraryStop.estimatedDurationMinutes =
      stops.map ItineraryStop.estimatedDurationMinutes ∧
    (enrich d stops).length = stops.length := by
  unfold enrich
  cases fetchAllDetails d stops with
  | error e => exact ⟨rfl, rfl, rfl, rfl, rfl⟩
  | ok m =>
    refine ⟨?_, ?_, ?_, ?_, by simp⟩ <;>
      (rw [List.map_map]
       exact List.map_congr_left
        (fun s _ => by
          have h := applyNeighborhood_skeleton m s
          simp [Function.comp, h.1, h.2.1, h.2.2.1, h.2.2.2]))

/-- If the detail fan-out rejects, the enrichment loop never runs. -/
theorem enrich_of_fail (d : String → Except String PlaceDetailsV1Result)
    (stops : List ItineraryStop) (e : String)
    (h : fetchAllDetails d stops = .error e) :
    enrich d stops = stops := by
  unfold enrich
  rw [h]

/-- Appending on the right preserves string non-emptiness. -/
theorem append_ne_empty_left (a b : String) (h : a ≠ "") : a ++ b ≠ "" := by
  intro hab
  apply h
  have hl := congrArg String.length hab
  rw [String.length_append] at hl
  have ha : a.length = 0 := by
    have : ("" : String).length = 0 := rfl
    omega
  have hd : a.data = [] := List.eq_nil_of_length_eq_zero ha
  cases a
  simp_all

/-- The orders assigned by one loop of the assembler are consecutive. -/
theorem enum_orders (l : List PlacesV1SearchResult) (k : Kind) (s : Nat)
    (e : Bool) (rat : Option String) :
    (l.enum.map (fun pi => placeToStop pi.2 k (s + pi.1) e rat)).map
        ItineraryStop.order = List.range' s l.length := by
  rw [List.map_map]
  rw [show (ItineraryStop.order ∘ fun pi : Nat × PlacesV1SearchResult =>
        placeToStop pi.2 k (s + pi.1) e rat) =
      ((fun x => s + x) ∘ Prod.fst) from rfl]
  rw [← List.map_map, List.enum_map_fst, ← List.range'_eq_map_range]

/-- Concatenating consecutive `range'` blocks (step 1). -/
theorem range'_append_one (s m n : Nat) :
    List.range' s m ++ List.range' (s + m) n = List.range' s (m + n) := by
  have h := List.range'_append s m n 1
  rw [Nat.one_mul] at h
  rw [h, Nat.add_comm n m]

/-- The length of the assembled stop list. -/
theorem assembleStops_length (c a l : List PlacesV1SearchResult) (e : Bool)
    (adv : Option ℚ) (sp : Option SpiceLabel) :
    (assembleStops c a l e adv sp).length = c.length + a.length + l.length := by
  simp [assembleStops]
  omega

/-- The assembler gives the stops consecutive orders starting at 1. -/
theorem assembleStops_orders (c a l : List PlacesV1SearchResult) (e : Bool)
    (adv : Option ℚ) (sp : Option SpiceLabel) :
    (assembleStops c a l e adv sp).map ItineraryStop.order =
      List.range' 1 (c.length + a.length + l.length) := by
  simp only [assembleStops]
  rw [List.map_append, List.map_append,
    enum_orders c .coffee 1 e (some coffeeRationale),
    enum_orders a .activity (1 + c.length) e (some (activityRationale adv)),
    enum_orders l .restaurant (1 + c.length + a.length) e (some (lunchRationale sp)),
    range'_append_one 1 c.length a.length]
  rw [show 1 + c.length + a.length = 1 + (c.length + a.length) from by omega,
    range'_append_one 1 (c.length + a.length) l.length]

/-- The assembler emits coffee stops first, then activities, then the
restaurant stops. -/
theorem assembleStops_kinds (c a l : List PlacesV1SearchResult) (e : Bool)
    (adv : Option ℚ) (sp : Option SpiceLabel) :
    (assembleStops c a l e adv sp).map ItineraryStop.kind =
      List.replicate c.length Kind.coffee ++
      List.replicate a.length Kind.activity ++
      List.replicate l.length Kind.restaurant := by
  simp only [assembleStops]
  rw [List.map_append, List.map_append, List.map_map, List.map_map, List.map_map]
  rw [show (ItineraryStop.kind ∘ fun pi : Nat × PlacesV1SearchResult =>
        placeToStop pi.2 .coffee (1 + pi.1) e (some coffeeRationale)) =
      (fun _ => Kind.coffee) from rfl]
  rw [show (ItineraryStop.kind ∘ fun pi : Nat × PlacesV1SearchResult =>
        placeToStop pi.2 .activity (1 + c.length + pi.1) e
          (some (activityRationale adv))) = (fun _ => Kind.activity) from rfl]
  rw [show (ItineraryStop.kind ∘ fun pi : Nat × PlacesV1SearchResult =>
        placeToStop pi.2 .restaurant (1 + c.length + a.length + pi.1) e
          (some (lunchRationale sp))) = (fun _ => Kind.restaurant) from rfl]
  rw [List.map_const', List.map_const', List.map_const',
    List.enum_length, List.enum_length, List.enum_length]

/-- With the explain flag off, the assembler writes no rationale. -/
theorem assembleStops_rationale_none (c a l : List PlacesV1SearchResult)
    (adv : Option ℚ) (sp : Option SpiceLabel) (s : ItineraryStop)
    (hs : s ∈ assembleStops c a l false adv sp) : s.rationale = none := by
  simp only [assembleStops, List.mem_append, List.mem_map] at hs
  rcases hs with (⟨pi, _, rfl⟩ | ⟨pi, _, rfl⟩) | ⟨pi, _, rfl⟩ <;> rfl

/-- The activity rationale literal is never empty. -/
theorem activityRationale_ne_empty (adv : Option ℚ) :
    activityRationale adv ≠ "" := by
  unfold activityRationale
  split <;> decide

/-- The lunch rationale literal is never empty. -/
theorem lunchRationale_ne_empty (sp : Option SpiceLabel) :
    lunchRationale sp ≠ "" := by
  unfold lunchRationale
  rcases sp with _ | l
  · decide
  · cases l <;> decide

/-- With the explain flag on, the assembler writes a non-empty rationale on
every stop. -/
theorem assembleStops_rationale_nonempty (c a l : List PlacesV1SearchResult)
    (adv : Option ℚ) (sp : Option SpiceLabel) (s : ItineraryStop)
    (hs : s ∈ assembleStops c a l true adv sp) :
    ∃ t, s.rationale = some t ∧ t ≠ "" := by
  simp only [assembleStops, List.mem_append, List.mem_map] at hs
  rcases hs with (⟨pi, _, rfl⟩ | ⟨pi, _, rfl⟩) | ⟨pi, _, rfl⟩
  · exact ⟨coffeeRationale, rfl, by decide⟩
  · exact ⟨activityRationale adv, rfl, activityRationale_ne_empty adv⟩
  · exact ⟨lunchRationale sp, rfl, lunchRationale_ne_empty sp⟩

/-- Enrichment never erases or empties an existing non-empty rationale. -/
theorem enrich_rationale_nonempty (d : String → Except String PlaceDetailsV1Result)
    (stops : List ItineraryStop)
    (h : ∀ s ∈ stops, ∃ t, s.rationale = some t ∧ t ≠ "") :
    ∀ s ∈ enrich d stops, ∃ t, s.rationale = some t ∧ t ≠ "" := by
  unfold enrich
  cases fetchAllDetails d stops with
  | error e => exact h
  | ok m =>
    intro s hs
    rw [List.mem_map] at hs
    obtain ⟨s0, hs0, rfl⟩ := hs
    obtain ⟨t, ht, hne⟩ := h s0 hs0
    unfold applyNeighborhood
    cases neighborhoodLabel m s0 with
    | none => exact ⟨t, ht, hne⟩
    | some n =>
      refine ⟨_, rfl, ?_⟩
      have htr : optStrTruthy s0.rationale = true := by
        rw [ht]; simpa [optStrTruthy] using hne
      rw [if_pos htr, ht]
      show (t ++ " (Area: " ++ n ++ ")") ≠ ""
      exact append_ne_empty_left _ _
        (append_ne_empty_left _ _ (append_ne_empty_left _ _ hne))

/-- The kinds of the final stop list: coffee, then activities, then
restaurants. -/
theorem finalChosen_map_kind (env : Env) (req : ItineraryRequest)
    (c re p m : List PlacesV1SearchResult) :
    (finalChosen env req c re p m).map ItineraryStop.kind =
      List.replicate (pickTopPlaces c 1).length Kind.coffee ++
      List.replicate ((pickTopPlaces p 1 ++ pickTopPlaces m 1).take 2).length
        Kind.activity ++
      List.replicate (pickTopPlaces re 1).length Kind.restaurant := by
  simp only [finalChosen, selectChosen]
  split
  · rw [(enrich_skeleton env.details _).2.2.1]
    exact assembleStops_kinds ..
  · exact assembleStops_kinds ..

/-- The orders of the final stop list are `1, 2, …`. -/
theorem finalChosen_orders (env : Env) (req : ItineraryRequest)
    (c re p m : List PlacesV1SearchResult) :
    (finalChosen env req c re p m).map ItineraryStop.order =
      List.range' 1 (finalChosen env req c re p m).length := by
  simp only [finalChosen, selectChosen]
  split
  · rw [(enrich_skeleton env.details _).2.1,
      (enrich_skeleton env.details _).2.2.2.2,
      assembleStops_orders, assembleStops_length]
  · rw [assembleStops_orders, assembleStops_length]

/-- A list whose orders are `1, 2, …` has `order = i + 1` at index `i`. -/
theorem get_order_of_orders_range (stops : List ItineraryStop)
    (h : stops.map ItineraryStop.order = List.range' 1 stops.length)
    (i : Nat) (hi : i < stops.length) :
    (stops.get ⟨i, hi⟩).order = i + 1 := by
  have hi' : i < (stops.map ItineraryStop.order).length := by simpa using hi
  have e1 : (stops.map ItineraryStop.order)[i] =
      ItineraryStop.order stops[i] := List.getElem_map ..
  simp only [h] at e1
  rw [List.getElem_range'] at e1
  rw [List.get_eq_getElem]
  show stops[i].order = i + 1
  omega

/-! ## Claim theorems -/

/-- **C1** (corrected), counterexample: at a candidate whose fields are all
present but whose latitude is `0`, `pickTopPlaces` differs from the spec's
reference Selector (which filters only on field presence): the code's
truthiness filter drops the candidate. -/
theorem selector_reference_counterexample :
    pickTopPlaces [zeroLatPlace] 1 ≠ specSelect [zeroLatPlace] 1 := by
  decide

/-- **C1** (amended): `pickTopPlaces` equals the reference Selector once
the reference filter drops candidates whose id or name is missing or
empty, or whose latitude or longitude is missing or zero; the remainder
is stably sorted descending by rating then rating count (missing values
treated as 0) and the first N are taken; moreover candidates tied on both
sort keys keep their relative input order (the tied subsequence of the
sorted list is exactly the tied subsequence of the filtered input), and
the whole selection is a pure function of the input, hence deterministic. -/
theorem selector_refines_amended_reference
    (places : List PlacesV1SearchResult) (n : Nat) :
    pickTopPlaces places n =
      ((places.filter amendedEligible).insertionSort specLE).take n ∧
    ∀ ro co : ℚ,
      ((places.filter eligible).insertionSort placeLE).filter (sameKeys ro co) =
        (places.filter eligible).filter (sameKeys ro co) := by
  constructor
  · unfold pickTopPlaces
    rw [← eligible_eq_amended,
      insertionSort_congr placeLE specLE placeLE_iff_specLE]
  · intro ro co
    apply filter_insertionSort
    intro a b ha hb
    have ha' := of_decide_eq_true ha
    have hb' := of_decide_eq_true hb
    unfold placeLE
    rw [if_pos (ha'.1.trans hb'.1.symm), hb'.2, ha'.2]

/-- **C2** (corrected), counterexample: a candidate with identifier, name
and both coordinates present, but latitude `0`, is not retained by the
Selector's filter, contradicting "regardless of the coordinate's numeric
value". -/
theorem eligibility_presence_counterexample :
    zeroLatPlace.id.isSome = true ∧
    (zeroLatPlace.displayName.bind DisplayName.text).isSome = true ∧
    (zeroLatPlace.location.bind PlaceLocation.latitude).isSome = true ∧
    (zeroLatPlace.location.bind PlaceLocation.longitude).isSome = true ∧
    eligible zeroLatPlace = false ∧
    pickTopPlaces [zeroLatPlace] 1 = [] := by
  decide

/-- **C3** (corrected), counterexample: for a validated request carrying
only a zip code, a failing geocoding lookup does not produce a 400
response — the handler lets the exception escape uncaught. -/
theorem geocode_failure_counterexample :
    runHandler failGeoEnv zipReq = .error "Geocoding failed (500)" ∧
    ¬ ∃ resp, runHandler failGeoEnv zipReq = .ok resp ∧ resp.statusCode = 400 := by
  constructor
  · rfl
  · rintro ⟨resp, hresp, -⟩
    rw [show runHandler failGeoEnv zipReq = .error "Geocoding failed (500)"
      from rfl] at hresp
    cases hresp

/-- **C3** (amended): for a request that passes validation with only a
postal code, a failure of the geocoding lookup is not caught by the
handler: the error propagates as an uncaught exception and no HTTP
response (in particular no 400) is produced by the handler itself; the
400 missing-origin response is returned only when both origin and zip
code are absent. -/
theorem geocode_failure_propagates (env : Env) (req : ItineraryRequest)
    (k z e : String)
    (hk : env.apiKey = some k) (ho : req.origin = none)
    (hz : req.zipCode = some z) (hz' : z ≠ "")
    (hgeo : env.geocode z = .error e) :
    runHandler env req = .error e := by
  have hor : resolveOrigin env req = .error e := by
    unfold resolveOrigin
    rw [ho, hz]
    show (if z = "" then Except.ok none
          else Except.map some (env.geocode z)) = Except.error e
    rw [if_neg hz', hgeo]
    rfl
  unfold runHandler
  rw [hk, hor]

/-- **C3** witness: the amended theorem applied to the concrete failing
geocoder environment and zip-only request. -/
theorem geocode_failure_propagates_witness :
    runHandler failGeoEnv zipReq = .error "Geocoding failed (500)" :=
  geocode_failure_propagates failGeoEnv zipReq "k" "98101"
    "Geocoding failed (500)" rfl rfl rfl (by decide) rfl

/-- **C6** (corrected), counterexample: the maps link is built on the host
`https://www.google.com/maps/...`, not `https://maps.google.com/maps/...`
as the spec's template says. -/
theorem maps_url_counterexample :
    googleMapsPlaceUrl "abc" ≠
      "https://maps.google.com/maps/place/?q=place_id:abc" ∧
    googleMapsPlaceUrl "abc" =
      "https://www.google.com/maps/place/?q=place_id:abc" := by
  constructor
  · decide
  · rfl

/-- **C6** (amended): every assembled stop's Google Maps link equals the
template `https://www.google.com/maps/place/?q=place_id:<urlencoded-id>`
instantiated with the URL-encoded candidate identifier; and the encoding
percent-escapes reserved characters. -/
theorem stop_maps_url (place : PlacesV1SearchResult) (kind : Kind)
    (order : Nat) (explain : Bool) (rationale : Option String) :
    (∃ l, (placeToStop place kind order explain rationale).links = some l ∧
      l.googleMapsUrl = some ("https://www.google.com/maps/place/?q=place_id:" ++
        encodeURIComponent (place.id.getD ""))) ∧
    googleMapsPlaceUrl "a b/c" =
      "https://www.google.com/maps/place/?q=place_id:a%20b%2Fc" := by
  refine ⟨⟨_, rfl, rfl⟩, ?_⟩
  decide

/-- **C7** (confirmed): the radius in meters is the requested miles times
the exact factor 1609.344, rounded to the nearest integer (half up, as
`Math.round`); 30 miles convert to 48280 meters. -/
theorem miles_to_meters_conversion (mi : ℚ) :
    milesToMeters mi = round (mi * (1609344 / 1000 : ℚ)) ∧
    milesToMeters (30 : ℚ) = 48280 := by
  constructor
  · unfold milesToMeters
    norm_num
  · unfold milesToMeters
    rw [round_eq]
    norm_num

/-- **C7** witness: the conversion theorem instantiated at 30 miles. -/
theorem miles_to_meters_conversion_witness :
    milesToMeters (30 : ℚ) = 48280 :=
  (miles_to_meters_conversion 30).2

/-- **C8** (confirmed): in every successful response the total estimated
hours equal the sum of the stops' minutes divided by 60 and rounded half-up
to one decimal place; and any stop list summing to 320 minutes totals 5.3
hours. -/
theorem total_hours_formula (env : Env) (req : ItineraryRequest)
    (resp : HttpResponse) (r : ItineraryResponse)
    (h1 : runHandler env req = .ok resp) (h2 : resp.statusCode = 200)
    (h3 : resp.body = .success r) (stops : List ItineraryStop)
    (h4 : sumMinutes stops = 320) :
    r.itinerary.totalEstimatedHours =
      (round (sumMinutes r.itinerary.stops / 60 * 10) : ℚ) / 10 ∧
    totalHoursFromStops stops = 53 / 10 := by
  constructor
  · obtain ⟨c, re, p, m, hc, hre, hp, hm, hne, hr⟩ :=
      runHandler_ok_200 env req resp r h1 h2 h3
    subst hr
    rfl
  · show (round (sumMinutes stops / 60 * 10) : ℚ) / 10 = 53 / 10
    rw [h4, round_eq]
    norm_num

/-- **C8** witness: the formula holds on a concrete successful run, and a
concrete stop list summing to 320 minutes totals 5.3 hours. -/
theorem total_hours_formula_witness :
    (respPayload (respOf (runHandler goodEnv baseReq))).itinerary.totalEstimatedHours =
      (round (sumMinutes
        (respPayload (respOf (runHandler goodEnv baseReq))).itinerary.stops
        / 60 * 10) : ℚ) / 10 ∧
    totalHoursFromStops [minutesStop 200, minutesStop 120] = 53 / 10 :=
  total_hours_formula goodEnv baseReq (respOf (runHandler goodEnv baseReq))
    (respPayload (respOf (runHandler goodEnv baseReq))) rfl rfl rfl
    [minutesStop 200, minutesStop 120]
    (by norm_num [sumMinutes, minutesStop, List.foldl_cons, List.foldl_nil])

/-- **C2** (amended): a candidate is retained by the Selector's filter iff
its identifier and display-name text are present and non-empty and its
latitude and longitude are present and non-zero. -/
theorem eligibility_characterization (p : PlacesV1SearchResult) :
    eligible p = true ↔
      ((∃ s, p.id = some s ∧ s ≠ "") ∧
       (∃ s, p.displayName.bind DisplayName.text = some s ∧ s ≠ "") ∧
       (∃ q, p.location.bind PlaceLocation.latitude = some q ∧ q ≠ 0) ∧
       (∃ q, p.location.bind PlaceLocation.longitude = some q ∧ q ≠ 0)) := by
  unfold eligible optStrTruthy optNumTruthy
  rcases p.id with _ | s <;>
    rcases p.displayName.bind DisplayName.text with _ | t <;>
    rcases p.location.bind PlaceLocation.latitude with _ | la <;>
    rcases p.location.bind PlaceLocation.longitude with _ | lo <;>
    simp [and_assoc]

/-- **C4** (confirmed): in a successful response, stops carry no rationale
when the explain flag is false or absent, and carry a non-empty rationale
when it is true. -/
theorem rationale_iff_explain (env : Env) (req : ItineraryRequest)
    (resp : HttpResponse) (r : ItineraryResponse)
    (h1 : runHandler env req = .ok resp) (h2 : resp.statusCode = 200)
    (h3 : resp.body = .success r) :
    (reqExplain req = false → ∀ s ∈ r.itinerary.stops, s.rationale = none) ∧
    (reqExplain req = true → ∀ s ∈ r.itinerary.stops,
      ∃ t, s.rationale = some t ∧ t ≠ "") := by
  obtain ⟨c, re, p, m, hc, hre, hp, hm, hne, hr⟩ :=
    runHandler_ok_200 env req resp r h1 h2 h3
  subst hr
  constructor
  · intro hexp s hs
    have hfc : finalChosen env req c re p m =
        selectChosen c re p m false (reqAdventure req) (reqSpice req) := by
      simp [finalChosen, hexp]
    rw [show (successResponse env req (finalChosen env req c re p m)).itinerary.stops
        = finalChosen env req c re p m from rfl, hfc] at hs
    exact assembleStops_rationale_none _ _ _ _ _ s hs
  · intro hexp s hs
    have hfc : finalChosen env req c re p m =
        enrich env.details
          (selectChosen c re p m true (reqAdventure req) (reqSpice req)) := by
      simp [finalChosen, hexp]
    rw [show (successResponse env req (finalChosen env req c re p m)).itinerary.stops
        = finalChosen env req c re p m from rfl, hfc] at hs
    exact enrich_rationale_nonempty env.details _
      (fun s' hs' => assembleStops_rationale_nonempty _ _ _ _ _ s' hs') s hs

/-- **C4** witness: the theorem applied to a concrete successful
`explain: true` run. -/
theorem rationale_iff_explain_witness :
    (reqExplain explainReq = false →
      ∀ s ∈ (respPayload (respOf (runHandler goodEnv explainReq))).itinerary.stops,
        s.rationale = none) ∧
    (reqExplain explainReq = true →
      ∀ s ∈ (respPayload (respOf (runHandler goodEnv explainReq))).itinerary.stops,
        ∃ t, s.rationale = some t ∧ t ≠ "") :=
  rationale_iff_explain goodEnv explainReq (respOf (runHandler goodEnv explainReq))
    (respPayload (respOf (runHandler goodEnv explainReq))) rfl rfl rfl

/-- **C5** (confirmed): a rejected place-detail fetch during enrichment
never fails the request; status code, stop count and stop identities agree
with any run differing only in the detail oracle, and the stops are
exactly the pre-enrichment stops (rationales untouched). -/
theorem enrichment_failure_harmless (env : Env)
    (d2 : String → Except String PlaceDetailsV1Result)
    (req : ItineraryRequest) (k : String) (o : LatLng)
    (coffee restaurants parks museums : List PlacesV1SearchResult) (e : String)
    (hk : env.apiKey = some k) (hor : resolveOrigin env req = .ok (some o))
    (hc : env.search "cafe" = .ok coffee)
    (hre : env.search "restaurant" = .ok restaurants)
    (hp : env.search "park" = .ok parks)
    (hm : env.search "museum" = .ok museums)
    (hex : reqExplain req = true)
    (hfail : fetchAllDetails env.details
      (selectChosen coffee restaurants parks museums true
        (reqAdventure req) (reqSpice req)) = .error e) :
    ∃ r1 r2, runHandler env req = .ok r1 ∧
      runHandler { env with details := d2 } req = .ok r2 ∧
      r1.statusCode = r2.statusCode ∧
      (stopsOf r1).map ItineraryStop.id = (stopsOf r2).map ItineraryStop.id ∧
      (stopsOf r1).length = (stopsOf r2).length ∧
      stopsOf r1 = selectChosen coffee restaurants parks museums true
        (reqAdventure req) (reqSpice req) := by
  have h1 := runHandler_main env req k o coffee restaurants parks museums
    hk hor hc hre hp hm
  have h2 := runHandler_main { env with details := d2 } req k o
    coffee restaurants parks museums hk hor hc hre hp hm
  have hfc1 : finalChosen env req coffee restaurants parks museums =
      selectChosen coffee restaurants parks museums true
        (reqAdventure req) (reqSpice req) := by
    simp only [finalChosen, hex, if_true]
    exact enrich_of_fail env.details _ e hfail
  have hfc2 : finalChosen { env with details := d2 } req
      coffee restaurants parks museums =
      enrich d2 (selectChosen coffee restaurants parks museums true
        (reqAdventure req) (reqSpice req)) := by
    simp only [finalChosen, hex, if_true]
  have hlen2 := (enrich_skeleton d2 (selectChosen coffee restaurants parks museums
    true (reqAdventure req) (reqSpice req))).2.2.2.2
  by_cases h0 : (selectChosen coffee restaurants parks museums true
      (reqAdventure req) (reqSpice req)).length = 0
  · have hnil := List.eq_nil_of_length_eq_zero h0
    refine ⟨notFoundResponse, notFoundResponse, ?_, ?_, rfl, rfl, rfl, ?_⟩
    · rw [h1, hfc1, if_pos h0]
    · rw [h2, hfc2, if_pos (by rw [hlen2]; exact h0)]
    · show ([] : List ItineraryStop) = _
      exact hnil.symm
  · refine ⟨okResponse env req (selectChosen coffee restaurants parks museums
        true (reqAdventure req) (reqSpice req)),
      okResponse { env with details := d2 } req
        (enrich d2 (selectChosen coffee restaurants parks museums true
          (reqAdventure req) (reqSpice req))), ?_, ?_, rfl, ?_, ?_, rfl⟩
    · rw [h1, hfc1, if_neg h0]
    · rw [h2, hfc2, if_neg (by rw [hlen2]; exact h0)]
    · exact ((enrich_skeleton d2 _).1).symm
    · exact hlen2.symm

/-- **C5** witness: the theorem applied to the concrete environment whose
detail oracle always rejects, compared against the healthy oracle. -/
theorem enrichment_failure_harmless_witness :
    ∃ r1 r2, runHandler failDetailsEnv explainReq = .ok r1 ∧
      runHandler { failDetailsEnv with details := goodDetails } explainReq = .ok r2 ∧
      r1.statusCode = r2.statusCode ∧
      (stopsOf r1).map ItineraryStop.id = (stopsOf r2).map ItineraryStop.id ∧
      (stopsOf r1).length = (stopsOf r2).length ∧
      stopsOf r1 = selectChosen [goodPlace "cafe1" "Good Cafe" 5 10]
        [goodPlace "rest1" "Good Lunch" 4 20] [goodPlace "park1" "Good Park" 3 5]
        [goodPlace "mus1" "Good Museum" 5 1] true
        (reqAdventure explainReq) (reqSpice explainReq) :=
  enrichment_failure_harmless failDetailsEnv goodDetails explainReq "k"
    { lat := 47, lng := -122 }
    [goodPlace "cafe1" "Good Cafe" 5 10] [goodPlace "rest1" "Good Lunch" 4 20]
    [goodPlace "park1" "Good Park" 3 5] [goodPlace "mus1" "Good Museum" 5 1]
    "Places details failed (500)" rfl rfl rfl rfl rfl rfl rfl rfl

/-- **C9** (confirmed): in every successful response the stops come in
fixed category order — coffee, then activities, then restaurants — and the
stop at (0-based) position `i` has `order = i + 1`. -/
theorem stops_category_order (env : Env) (req : ItineraryRequest)
    (resp : HttpResponse) (r : ItineraryResponse)
    (h1 : runHandler env req = .ok resp) (h2 : resp.statusCode = 200)
    (h3 : resp.body = .success r) :
    (∃ n1 n2 n3, r.itinerary.stops.map ItineraryStop.kind =
      List.replicate n1 Kind.coffee ++ List.replicate n2 Kind.activity ++
        List.replicate n3 Kind.restaurant) ∧
    ∀ i (h : i < r.itinerary.stops.length),
      (r.itinerary.stops.get ⟨i, h⟩).order = i + 1 := by
  obtain ⟨c, re, p, m, hc, hre, hp, hm, hne, hr⟩ :=
    runHandler_ok_200 env req resp r h1 h2 h3
  subst hr
  constructor
  · exact ⟨_, _, _, finalChosen_map_kind env req c re p m⟩
  · intro i hi
    exact get_order_of_orders_range _ (finalChosen_orders env req c re p m) i hi

/-- **C9** witness: the theorem applied to a concrete successful run. -/
theorem stops_category_order_witness :
    (∃ n1 n2 n3,
      (respPayload (respOf (runHandler goodEnv baseReq))).itinerary.stops.map
          ItineraryStop.kind =
        List.replicate n1 Kind.coffee ++ List.replicate n2 Kind.activity ++
          List.replicate n3 Kind.restaurant) ∧
    ∀ i (h : i <
        (respPayload (respOf (runHandler goodEnv baseReq))).itinerary.stops.length),
      ((respPayload (respOf (runHandler goodEnv baseReq))).itinerary.stops.get
        ⟨i, h⟩).order = i + 1 :=
  stops_category_order goodEnv baseReq (respOf (runHandler goodEnv baseReq))
    (respPayload (respOf (runHandler goodEnv baseReq))) rfl rfl rfl

/-- **C10** (confirmed): the response metadata's adventure score is the
explicit preference score when supplied, otherwise derived from the spice
label by mild → 2, medium → 6, hot → 9, and absent when neither is
supplied. -/
theorem adventure_score_derivation (env : Env) (req : ItineraryRequest)
    (resp : HttpResponse) (r : ItineraryResponse)
    (h1 : runHandler env req = .ok resp) (h2 : resp.statusCode = 200)
    (h3 : resp.body = .success r) :
    r.meta.adventureScore =
      (match req.preferences.bind Preferences.adventureScore,
             req.preferences.bind Preferences.spiceLabel with
       | some a, _ => some a
       | none, some SpiceLabel.mild => some 2
       | none, some SpiceLabel.medium => some 6
       | none, some SpiceLabel.hot => some 9
       | none, none => none) := by
  obtain ⟨c, re, p, m, hc, hre, hp, hm, hne, hr⟩ :=
    runHandler_ok_200 env req resp r h1 h2 h3
  subst hr
  show reqAdventure req = _
  unfold reqAdventure reqSpice toAdventureScore
  cases hA : req.preferences.bind Preferences.adventureScore with
  | some a => rfl
  | none =>
    cases hS : req.preferences.bind Preferences.spiceLabel with
    | none => rfl
    | some sl => cases sl <;> rfl

/-- **C10** witness: the theorem applied to a concrete run whose request
supplies a `medium` spice label and no explicit score. -/
theorem adventure_score_derivation_witness :
    (respPayload (respOf (runHandler goodEnv spiceReq))).meta.adventureScore =
      (match spiceReq.preferences.bind Preferences.adventureScore,
             spiceReq.preferences.bind Preferences.spiceLabel with
       | some a, _ => some a
       | none, some SpiceLabel.mild => some 2
       | none, some SpiceLabel.medium => some 6
       | none, some SpiceLabel.hot => some 9
       | none, none => none) :=
  adventure_score_derivation goodEnv spiceReq (respOf (runHandler goodEnv spiceReq))
    (respPayload (respOf (runHandler goodEnv spiceReq))) rfl rfl rfl

end Daytripper
